import Mathlib

/-!
Verification of the Spotify listening-history ingestion pipeline
(`tools/ingest.py` together with `src/spotify_dashboard/database.py` and
`src/spotify_dashboard/models.py`) against its natural-language
specification.

The Python code is shallowly embedded: JSON values become an inductive
type, Python dicts become association lists, the SQLAlchemy session
becomes an explicit record of committed and pending rows, and fallible
Python code returns `Except`.  Each definition mirrors the source
function of the same name.
-/

/-- A JSON value as produced by Python's `json.load`: `null`, booleans,
numbers, strings, arrays and objects.  Objects are association lists in
insertion order, mirroring Python dicts. -/
inductive JVal where
  | null
  | bool (b : Bool)
  | num (n : Int)
  | str (s : String)
  | arr (elems : List JVal)
  | obj (fields : List (String × JVal))

/-- A raw record as it appears inside an export file: a parsed JSON
object, i.e. a Python dict mapping string keys to JSON values. -/
abbrev RawRecord := List (String × JVal)

/-- A transformed record, the dict built by `transform_record` and handed
to the batch writer. -/
abbrev TRec := List (String × JVal)

/-- The Python exceptions the embedded pipeline can raise:
`json.JSONDecodeError` (parseError), `TypeError` (typeError),
`KeyError k` (keyError), and the database's constraint-violation error
(integrityError). -/
inductive PyErr where
  | parseError
  | typeError
  | keyError (k : String)
  | integrityError
deriving DecidableEq

/-- Python `record[k]` on a dict: the value at `k`, or a `KeyError`. -/
def getItem (record : RawRecord) (k : String) : Except PyErr JVal :=
  match record.lookup k with
  | some v => .ok v
  | none => .error (.keyError k)

/-- Python `record.get(k)` on a dict: the stored value (which may itself
be `null`), or `null` when the key is absent. -/
def pyGet (record : RawRecord) (k : String) : JVal :=
  (record.lookup k).getD .null

/-- Python `record.get(k, d)` on a dict: the stored value (which may
itself be `null`), or the default `d` only when the key is absent. -/
def pyGetD (record : RawRecord) (k : String) (d : JVal) : JVal :=
  (record.lookup k).getD d

/-- Python iteration (`yield from data`) over a parsed JSON value: an
array yields its elements, a dict yields its keys, a string yields its
one-character substrings, and any other value raises a `TypeError`. -/
def pyIter : JVal → Except PyErr (List JVal)
  | .arr xs => .ok xs
  | .obj fs => .ok (fs.map (fun p => .str p.1))
  | .str s => .ok (s.toList.map (fun c => .str (String.singleton c)))
  | _ => .error .typeError

/-- Embeds `load_json_records`: the file is given as the outcome of
`json.load` (a parse error for syntactically invalid JSON, otherwise the
parsed top-level value), and the generator body `yield from data`
iterates over that value. -/
def load_json_records (fileContent : Except PyErr JVal) :
    Except PyErr (List JVal) := do
  pyIter (← fileContent)

/-- Embeds `transform_record`: builds the insertion dict from a raw
record, reading `ts` and `username` with `[]` (KeyError when absent) and
every other field with `.get`, renaming the three
`master_metadata_`-prefixed keys and injecting the caller-supplied
`source_file` label.  Subscripting a non-dict value raises a
`TypeError`, as in Python. -/
def transform_record (record : JVal) (source_file : String) :
    Except PyErr TRec :=
  match record with
  | .obj r => do
    let ts ← getItem r "ts"
    let username ← getItem r "username"
    .ok [("ts", ts),
         ("username", username),
         ("platform", pyGet r "platform"),
         ("conn_country", pyGet r "conn_country"),
         ("ip_addr_decrypted", pyGet r "ip_addr_decrypted"),
         ("user_agent_decrypted", pyGet r "user_agent_decrypted"),
         ("ms_played", pyGetD r "ms_played" (.num 0)),
         ("track_name", pyGet r "master_metadata_track_name"),
         ("artist_name", pyGet r "master_metadata_album_artist_name"),
         ("album_name", pyGet r "master_metadata_album_album_name"),
         ("spotify_track_uri", pyGet r "spotify_track_uri"),
         ("reason_start", pyGet r "reason_start"),
         ("reason_end", pyGet r "reason_end"),
         ("shuffle", pyGet r "shuffle"),
         ("skipped", pyGet r "skipped"),
         ("offline", pyGet r "offline"),
         ("offline_timestamp", pyGet r "offline_timestamp"),
         ("incognito_mode", pyGetD r "incognito_mode" (.bool false)),
         ("source_file", .str source_file)]
  | _ => .error .typeError

/-- Boolean test that `transform_record` succeeds on a record. -/
def transformOk (record : JVal) (source_file : String) : Bool :=
  match transform_record record source_file with
  | .ok _ => true
  | .error _ => false

/-- Embeds the `StreamRow` ORM model: `StreamRow(**record)` packages the
transformed dict into a row object for the `streams` table. -/
structure StreamRow where
  fields : TRec

/-- Embeds the SQLAlchemy session held by `get_session`: the rows already
committed to the `streams` table, and the rows staged in the current
(not yet committed) transaction. -/
structure DBSession where
  committed : List StreamRow
  pending : List StreamRow

/-- Embeds `session.bulk_save_objects`: stages rows in the current
transaction without committing them. -/
def DBSession.bulk_save_objects (s : DBSession) (objs : List StreamRow) :
    DBSession :=
  ⟨s.committed, s.pending ++ objs⟩

/-- Embeds `session.commit` against the transactional store (spec §6:
the persistence collaborator commits a transaction atomically).  The
store's row-acceptance predicate `ok` models its constraints: if every
pending row satisfies them the transaction commits in full, otherwise an
`IntegrityError` is raised and nothing is committed. -/
def DBSession.commit (s : DBSession) (ok : StreamRow → Bool) :
    Except PyErr DBSession :=
  if s.pending.all ok then .ok ⟨s.committed ++ s.pending, []⟩
  else .error .integrityError

/-- Embeds `session.rollback`: discards the staged rows of the current
transaction, leaving committed rows untouched. -/
def DBSession.rollback (s : DBSession) : DBSession :=
  ⟨s.committed, []⟩

/-- Embeds `clear_table`: `TRUNCATE TABLE streaming_history.streams
RESTART IDENTITY` followed by `session.commit()` leaves the table
empty. -/
def clear_table (_session : DBSession) : DBSession :=
  ⟨[], []⟩

/-- Embeds `insert_batch`: builds `StreamRow` objects from the dicts, stages
them with `bulk_save_objects`, commits, and returns the number of
streams on success.  On a failed commit the exception propagates and the
transaction is left uncommitted (first component `.error`, session with
the staged rows still pending). -/
def insert_batch (ok : StreamRow → Bool) (session : DBSession)
    (records : List TRec) : Except PyErr Nat × DBSession :=
  let streams := records.map StreamRow.mk
  let session1 := session.bulk_save_objects streams
  match session1.commit ok with
  | .ok session2 => (.ok streams.length, session2)
  | .error e => (.error e, session1)

/-- The record-processing loop of `ingest_file`: iterates the raw
records, transforms each, appends it to the current batch, flushes the
batch through `insert_batch` (or, on dry runs, a counter increment)
whenever it reaches `batch_size`, and flushes the final partial batch.
Alongside the source's running total it returns, as instrumentation for
batch-boundary properties, the list of batches handed to
`insert_batch`. -/
def ingestLoop (ok : StreamRow → Bool) (source_file : String)
    (batch_size : Nat) (dry_run : Bool) :
    List JVal → DBSession → List TRec → Nat → List (List TRec) →
    Except PyErr (Nat × List (List TRec)) × DBSession
  | [], session, batch, total, writes =>
    if batch.isEmpty then (.ok (total, writes), session)
    else if dry_run then (.ok (total + batch.length, writes), session)
    else
      match insert_batch ok session batch with
      | (.ok n, session1) => (.ok (total + n, writes ++ [batch]), session1)
      | (.error e, session1) => (.error e, session1)
  | record :: records, session, batch, total, writes =>
    match transform_record record source_file with
    | .error e => (.error e, session)
    | .ok transformed =>
      let batch1 := batch ++ [transformed]
      if batch_size ≤ batch1.length then
        if dry_run then
          ingestLoop ok source_file batch_size dry_run records session []
            (total + batch1.length) writes
        else
          match insert_batch ok session batch1 with
          | (.ok n, session1) =>
            ingestLoop ok source_file batch_size dry_run records session1 []
              (total + n) (writes ++ [batch1])
          | (.error e, session1) => (.error e, session1)
      else
        ingestLoop ok source_file batch_size dry_run records session batch1
          total writes

/-- Embeds `ingest_file`: loads all records of one file through
`load_json_records` (the file given as its `json.load` outcome) and runs
the batching loop over them with an initially empty batch and zero
total. -/
def ingest_file (ok : StreamRow → Bool) (filename : String)
    (content : Except PyErr JVal) (batch_size : Nat) (dry_run : Bool)
    (session : DBSession) :
    Except PyErr (Nat × List (List TRec)) × DBSession :=
  match load_json_records content with
  | .error e => (.error e, session)
  | .ok records =>
    ingestLoop ok filename batch_size dry_run records session [] 0 []

/-- Boolean lexicographic comparison of character lists by code point:
the order Python's `sorted` uses on the path strings. -/
def lexLe : List Char → List Char → Bool
  | [], _ => true
  | _ :: _, [] => false
  | a :: as, b :: bs => if a = b then lexLe as bs else decide (a < b)

/-- The sorting relation of `sorted(json_files)`: lexicographic string
comparison. -/
def strRel (a b : String) : Prop := lexLe a.toList b.toList = true

instance : DecidableRel strRel := fun _ _ => instDecidableEqBool _ _

/-- The filename test of the glob pattern `Streaming_History_Audio_*.json`
on one directory entry: the fixed prefix followed by anything followed by
the fixed suffix. -/
def audioGlob (name : String) : Bool :=
  "Streaming_History_Audio_".toList.isPrefixOf name.toList &&
    ".json".toList.isSuffixOf
      (name.toList.drop "Streaming_History_Audio_".toList.length)

/-- Embeds `discover_json_files`: the directory is given as `none` when
it does not exist (Python's `Path.glob` then yields nothing) or as the
list of its entry names; the matching names are collected and sorted
ascending. -/
def discover_json_files (data_dir : Option (List String)) : List String :=
  match data_dir with
  | none => []
  | some names => List.insertionSort strRel (names.filter audioGlob)

/-- The per-file loop of `main`: ingests each discovered file in order
with the shared session, accumulating the total record count; the first
exception aborts the remaining files, as in Python. -/
def runFiles (ok : StreamRow → Bool) (batch_size : Nat) (dry_run : Bool)
    (contents : String → Except PyErr JVal) :
    List String → DBSession → Nat → Except PyErr Nat × DBSession
  | [], session, total => (.ok total, session)
  | f :: fs, session, total =>
    match ingest_file ok f (contents f) batch_size dry_run session with
    | (.ok (n, _), session1) =>
      runFiles ok batch_size dry_run contents fs session1 (total + n)
    | (.error e, session1) => (.error e, session1)

/-- The parsed command-line arguments of `tools/ingest.py`; `data_dir`
carries the directory listing itself (or `none` for a missing
directory). -/
structure Args where
  data_dir : Option (List String)
  batch_size : Nat
  dry_run : Bool
  clear : Bool

/-- Embeds `main`: discovers the files (returning early when none),
opens the session over the pre-existing committed rows `db0`, clears the
table only when `--clear` is given without `--dry-run`, ingests every
file, and closes the session with the commit-on-success /
rollback-on-error semantics of `get_session`.  Returns the run outcome
with its total, the final committed rows of the store, and whether
`clear_table` was executed. -/
def ingestMain (ok : StreamRow → Bool) (args : Args)
    (contents : String → Except PyErr JVal) (db0 : List StreamRow) :
    Except PyErr Nat × List StreamRow × Bool :=
  let json_files := discover_json_files args.data_dir
  if json_files.isEmpty then (.ok 0, db0, false)
  else
    let doClear := args.clear && !args.dry_run
    let session0 : DBSession := ⟨db0, []⟩
    let session1 := if doClear then clear_table session0 else session0
    match runFiles ok args.batch_size args.dry_run contents json_files
        session1 0 with
    | (.ok total, session2) =>
      match session2.commit ok with
      | .ok session3 => (.ok total, session3.committed, doClear)
      | .error e => (.error e, session2.rollback.committed, doClear)
    | (.error e, session2) => (.error e, session2.rollback.committed, doClear)

/-- A store that accepts every row: the "all inserts succeed" regime of
the spec's dry-run/real-run comparison. -/
def alwaysOk : StreamRow → Bool := fun _ => true

/-- The documented 19-key output set of the transformer, in the order the
source builds it. -/
def outputKeys : List String :=
  ["ts", "username", "platform", "conn_country", "ip_addr_decrypted",
   "user_agent_decrypted", "ms_played", "track_name", "artist_name",
   "album_name", "spotify_track_uri", "reason_start", "reason_end",
   "shuffle", "skipped", "offline", "offline_timestamp",
   "incognito_mode", "source_file"]

/-- The optional raw-record keys read by the transformer (everything it
reads except `ts` and `username`). -/
def optionalKeys : List String :=
  ["platform", "conn_country", "ip_addr_decrypted",
   "user_agent_decrypted", "ms_played", "master_metadata_track_name",
   "master_metadata_album_artist_name", "master_metadata_album_album_name",
   "spotify_track_uri", "reason_start", "reason_end", "shuffle",
   "skipped", "offline", "offline_timestamp", "incognito_mode"]

/-- The batch-length pattern the spec predicts for a file of `k` records
at batch size `bs`: full batches of exactly `bs`, then one final batch
of `k % bs` records when that remainder is non-zero. -/
def chunkLens (k bs : Nat) : List Nat :=
  List.replicate (k / bs) bs ++ if k % bs = 0 then [] else [k % bs]

/-- A minimal valid raw record, used to instantiate theorems at concrete
inputs. -/
def sampleRec : JVal :=
  .obj [("ts", .str "2024-01-01T00:00:00Z"), ("username", .str "user")]

/-- The record count of a file's parse outcome: the length of its
top-level array (0 when it is not an array). -/
def fileLen (contents : String → Except PyErr JVal) (f : String) : Nat :=
  match contents f with
  | .ok (.arr xs) => xs.length
  | _ => 0

/-- Unfolding lemma: `transform_record` on an object is determined by the
two required lookups. -/
theorem transform_record_obj (r : RawRecord) (source_file : String) :
    transform_record (.obj r) source_file =
      match r.lookup "ts", r.lookup "username" with
      | some tsv, some uv =>
        .ok [("ts", tsv),
             ("username", uv),
             ("platform", pyGet r "platform"),
             ("conn_country", pyGet r "conn_country"),
             ("ip_addr_decrypted", pyGet r "ip_addr_decrypted"),
             ("user_agent_decrypted", pyGet r "user_agent_decrypted"),
             ("ms_played", pyGetD r "ms_played" (.num 0)),
             ("track_name", pyGet r "master_metadata_track_name"),
             ("artist_name", pyGet r "master_metadata_album_artist_name"),
             ("album_name", pyGet r "master_metadata_album_album_name"),
             ("spotify_track_uri", pyGet r "spotify_track_uri"),
             ("reason_start", pyGet r "reason_start"),
             ("reason_end", pyGet r "reason_end"),
             ("shuffle", pyGet r "shuffle"),
             ("skipped", pyGet r "skipped"),
             ("offline", pyGet r "offline"),
             ("offline_timestamp", pyGet r "offline_timestamp"),
             ("incognito_mode", pyGetD r "incognito_mode" (.bool false)),
             ("source_file", .str source_file)]
      | none, _ => .error (.keyError "ts")
      | some _, none => .error (.keyError "username") := by
  simp only [transform_record, getItem]
  cases r.lookup "ts" <;> cases r.lookup "username" <;> rfl

/-- C3: `transform_record` raises a required-field error (a `KeyError`)
if and only if the raw record lacks the `ts` key or the `username` key,
and a `KeyError` is the only error it can raise on a record, so the
absence of any other field never raises. -/
theorem transform_required_iff (r : RawRecord) (source_file : String) :
    ((∃ k, transform_record (.obj r) source_file = .error (.keyError k)) ↔
      r.lookup "ts" = none ∨ r.lookup "username" = none) ∧
    (∀ e, transform_record (.obj r) source_file = .error e →
      ∃ k, e = .keyError k) := by
  rw [transform_record_obj]
  cases hts : r.lookup "ts" <;> cases hu : r.lookup "username" <;> simp

/-- C7: on any raw record on which it succeeds, `transform_record`
produces exactly the documented 19-key set in source order, never emits
the three `master_metadata_`-prefixed keys, and binds `source_file` to
the caller-supplied label. -/
theorem transform_output_shape (r : RawRecord) (source_file : String)
    (out : TRec)
    (h : transform_record (.obj r) source_file = .ok out) :
    out.map Prod.fst = outputKeys ∧
    outputKeys.length = 19 ∧
    "master_metadata_track_name" ∉ out.map Prod.fst ∧
    "master_metadata_album_artist_name" ∉ out.map Prod.fst ∧
    "master_metadata_album_album_name" ∉ out.map Prod.fst ∧
    out.lookup "source_file" = some (.str source_file) := by
  rw [transform_record_obj] at h
  revert h
  cases hts : r.lookup "ts" with
  | none => intro h; cases h
  | some tsv =>
    cases hu : r.lookup "username" with
    | none => intro h; cases h
    | some uv =>
      intro h
      cases h
      refine ⟨rfl, rfl, ?_, ?_, ?_, rfl⟩ <;> simp

/-- C8: on a raw record carrying `ts` and `username` and none of the
optional keys, `transform_record` yields duration 0, incognito false,
and null for every other optional field. -/
theorem transform_defaults (r : RawRecord) (source_file : String)
    (tsv uv : JVal)
    (hts : r.lookup "ts" = some tsv)
    (hu : r.lookup "username" = some uv)
    (hopt : ∀ k ∈ optionalKeys, r.lookup k = none) :
    transform_record (.obj r) source_file =
      .ok [("ts", tsv),
           ("username", uv),
           ("platform", .null),
           ("conn_country", .null),
           ("ip_addr_decrypted", .null),
           ("user_agent_decrypted", .null),
           ("ms_played", .num 0),
           ("track_name", .null),
           ("artist_name", .null),
           ("album_name", .null),
           ("spotify_track_uri", .null),
           ("reason_start", .null),
           ("reason_end", .null),
           ("shuffle", .null),
           ("skipped", .null),
           ("offline", .null),
           ("offline_timestamp", .null),
           ("incognito_mode", .bool false),
           ("source_file", .str source_file)] := by
  have h1 := hopt "platform" (by decide)
  have h2 := hopt "conn_country" (by decide)
  have h3 := hopt "ip_addr_decrypted" (by decide)
  have h4 := hopt "user_agent_decrypted" (by decide)
  have h5 := hopt "ms_played" (by decide)
  have h6 := hopt "master_metadata_track_name" (by decide)
  have h7 := hopt "master_metadata_album_artist_name" (by decide)
  have h8 := hopt "master_metadata_album_album_name" (by decide)
  have h9 := hopt "spotify_track_uri" (by decide)
  have h10 := hopt "reason_start" (by decide)
  have h11 := hopt "reason_end" (by decide)
  have h12 := hopt "shuffle" (by decide)
  have h13 := hopt "skipped" (by decide)
  have h14 := hopt "offline" (by decide)
  have h15 := hopt "offline_timestamp" (by decide)
  have h16 := hopt "incognito_mode" (by decide)
  rw [transform_record_obj, hts, hu]
  simp [pyGet, pyGetD, h1, h2, h3, h4, h5, h6, h7, h8, h9, h10, h11, h12,
    h13, h14, h15, h16]

/-- C10: the defaults of `ms_played` and `incognito_mode` apply only when
the key is absent; a key that is present and bound to JSON null passes
null through to the output instead of the default. -/
theorem null_not_defaulted (r : RawRecord) (source_file : String)
    (out : TRec)
    (h : transform_record (.obj r) source_file = .ok out) :
    (r.lookup "ms_played" = some .null →
      out.lookup "ms_played" = some .null) ∧
    (r.lookup "incognito_mode" = some .null →
      out.lookup "incognito_mode" = some .null) := by
  rw [transform_record_obj] at h
  revert h
  cases hts : r.lookup "ts" with
  | none => intro h; cases h
  | some tsv =>
    cases hu : r.lookup "username" with
    | none => intro h; cases h
    | some uv =>
      intro h
      cases h
      constructor
      · intro hm
        simp [List.lookup, pyGetD, hm]
      · intro hm
        simp [List.lookup, pyGetD, hm]

/-- Unfolding lemma: the loader propagates the parse outcome error. -/
theorem load_json_records_error (e : PyErr) :
    load_json_records (.error e) = .error e := rfl

/-- Unfolding lemma: on a parsed value the loader is Python iteration. -/
theorem load_json_records_ok (v : JVal) :
    load_json_records (.ok v) = pyIter v := rfl

/-- C2 counterexample: the file content `{"a": 1}` is syntactically valid
JSON but not a JSON array of objects, yet `load_json_records` does not
fail with a ParseError (or any error): Python's `yield from` iterates
over the dict and yields its keys. -/
theorem load_nonarray_not_parse_error :
    load_json_records (.ok (.obj [("a", .num 1)])) = .ok [.str "a"] ∧
    ∀ e, load_json_records (.ok (.obj [("a", .num 1)])) ≠ .error e := by
  constructor
  · rfl
  · intro e h
    exact Except.noConfusion h

/-- C2 (amended): `load_json_records` yields exactly the elements of the
file's top-level JSON array in file order, and fails with a ParseError
if and only if the file is not syntactically valid JSON; a valid
non-array top level is not rejected with a ParseError (iterating an
object yields its keys). -/
theorem load_json_records_spec (fileContent : Except PyErr JVal) :
    (∀ xs, fileContent = .ok (.arr xs) →
      load_json_records fileContent = .ok xs) ∧
    (∀ fs, fileContent = .ok (.obj fs) →
      load_json_records fileContent = .ok (fs.map (fun p => .str p.1))) ∧
    (load_json_records fileContent = .error .parseError ↔
      fileContent = .error .parseError) := by
  refine ⟨?_, ?_, ?_⟩
  · intro xs h; subst h; rfl
  · intro fs h; subst h; rfl
  · cases fileContent with
    | error e => rw [load_json_records_error]; cases e <;> simp
    | ok v => rw [load_json_records_ok]; cases v <;> simp [pyIter]

/-- Witness for the amended C2 theorem at a concrete array file. -/
theorem load_json_records_spec_witness :
    load_json_records (.ok (.arr [.null, .num 3])) = .ok [.null, .num 3] :=
  (load_json_records_spec (.ok (.arr [.null, .num 3]))).1 [.null, .num 3] rfl

/-- The Boolean lexicographic comparison agrees with the negation of the
strict lexicographic order of character lists. -/
theorem lexLe_iff (as bs : List Char) :
    lexLe as bs = true ↔ ¬ List.Lex (· < ·) bs as := by
  induction as generalizing bs with
  | nil =>
    cases bs with
    | nil => simp [lexLe]
    | cons b bs => simp [lexLe]
  | cons a as ih =>
    cases bs with
    | nil =>
      simp [lexLe]
      exact List.Lex.nil
    | cons b bs =>
      by_cases hab : a = b
      · subst hab
        simp [lexLe, ih]
        constructor
        · intro h hc
          exact h ((List.Lex.cons_iff).mp hc)
        · intro h hc
          exact h (List.Lex.cons hc)
      · simp [lexLe, hab]
        constructor
        · intro hlt hc
          cases hc with
          | cons h => exact hab rfl
          | rel h => exact absurd hlt (not_lt_of_gt h)
        · intro h
          rcases lt_trichotomy a b with h1 | h1 | h1
          · exact h1
          · exact absurd h1 hab
          · exact absurd (List.Lex.rel h1) h

/-- The sorting relation used by the embedded `sorted` is exactly the
library's lexicographic order on strings. -/
theorem strRel_iff (a b : String) : strRel a b ↔ a ≤ b := by
  rw [strRel, lexLe_iff, String.le_iff_toList_le]
  exact @not_lt (List Char) _ b.toList a.toList

instance : IsTotal String strRel :=
  ⟨fun a b => by
    rcases le_total a b with h | h
    · exact Or.inl ((strRel_iff a b).mpr h)
    · exact Or.inr ((strRel_iff b a).mpr h)⟩

instance : IsTrans String strRel :=
  ⟨fun a b c hab hbc =>
    (strRel_iff a c).mpr
      (le_trans ((strRel_iff a b).mp hab) ((strRel_iff b c).mp hbc))⟩

/-- C9: `discover_json_files` returns exactly the directory entries
matching the `Streaming_History_Audio_*.json` pattern, sorted
lexicographically ascending, and returns an empty list (it can signal no
error) for a missing directory, an empty directory, or a directory with
no matching entries. -/
theorem discover_json_files_spec :
    discover_json_files none = [] ∧
    discover_json_files (some []) = [] ∧
    ∀ names : List String,
      List.Sorted (· ≤ ·) (discover_json_files (some names)) ∧
      (∀ x, x ∈ discover_json_files (some names) ↔
        x ∈ names ∧ audioGlob x = true) ∧
      ((∀ x ∈ names, audioGlob x = false) →
        discover_json_files (some names) = []) := by
  refine ⟨rfl, rfl, fun names => ⟨?_, ?_, ?_⟩⟩
  · exact (List.sorted_insertionSort strRel (names.filter audioGlob)).imp
      (fun h => (strRel_iff _ _).mp h)
  · intro x
    unfold discover_json_files
    rw [List.mem_insertionSort, List.mem_filter]
  · intro hnone
    have : names.filter audioGlob = [] := by
      rw [List.filter_eq_nil_iff]
      intro a ha
      simp [hnone a ha]
    show List.insertionSort strRel (names.filter audioGlob) = []
    rw [this]
    rfl

/-- Witness for C9: a directory whose single entry does not match the
pattern yields the empty list. -/
theorem discover_json_files_spec_witness :
    discover_json_files (some ["random_file.txt"]) = [] :=
  (discover_json_files_spec.2.2 ["random_file.txt"]).2.2
    (by decide)

/-- A successful `insert_batch` returns exactly the number of records it
was given and commits them, leaving no pending rows. -/
theorem insert_batch_ok (ok : StreamRow → Bool) (session : DBSession)
    (records : List TRec) (n : Nat) (session1 : DBSession)
    (h : insert_batch ok session records = (.ok n, session1)) :
    n = records.length ∧
    session1 =
      ⟨session.committed ++ (session.pending ++ records.map StreamRow.mk),
       []⟩ := by
  revert h
  unfold insert_batch DBSession.bulk_save_objects DBSession.commit
  by_cases hall :
      (session.pending ++ records.map StreamRow.mk).all ok = true
  · simp [hall]
    intro h1 h2
    exact ⟨h1.symm, h2.symm⟩
  · simp [hall]

/-- A failed `insert_batch` leaves the session with its committed rows
unchanged and the rejected batch still pending (uncommitted). -/
theorem insert_batch_error (ok : StreamRow → Bool) (session : DBSession)
    (records : List TRec) (e : PyErr)
    (h : (insert_batch ok session records).1 = .error e) :
    (insert_batch ok session records).2 =
      ⟨session.committed, session.pending ++ records.map StreamRow.mk⟩ := by
  revert h
  unfold insert_batch DBSession.bulk_save_objects DBSession.commit
  by_cases hall :
      (session.pending ++ records.map StreamRow.mk).all ok = true
  · simp [hall]
  · simp [hall]

/-- C6: when a batch insert fails, rolling back (as `get_session` does
when the exception propagates) leaves the store's committed rows exactly
as they were before that batch started, and the rows of a previously
committed batch are still present among them. -/
theorem failed_batch_rolls_back (ok : StreamRow → Bool)
    (s0 s1 : DBSession) (b1 b2 : List TRec) (n : Nat) (e : PyErr)
    (hp : s0.pending = [])
    (h1 : insert_batch ok s0 b1 = (.ok n, s1))
    (h2 : (insert_batch ok s1 b2).1 = .error e) :
    ((insert_batch ok s1 b2).2).rollback.committed = s1.committed ∧
    s1.committed = s0.committed ++ b1.map StreamRow.mk := by
  obtain ⟨-, hs1⟩ := insert_batch_ok ok s0 b1 n s1 h1
  constructor
  · rw [insert_batch_error ok s1 b2 e h2]
    rfl
  · rw [hs1, hp]
    simp

/-- Witness for C6: a store accepting only rows with empty field lists
commits a first batch and rejects a second, which rolls back. -/
theorem failed_batch_rolls_back_witness :
    ((insert_batch (fun st => st.fields.isEmpty)
        ⟨[⟨[]⟩], []⟩ [[("a", .null)]]).2).rollback.committed = [⟨[]⟩] ∧
    ([⟨[]⟩] : List StreamRow) = [] ++ [[]].map StreamRow.mk := by
  exact failed_batch_rolls_back (fun st => st.fields.isEmpty)
    ⟨[], []⟩ ⟨[⟨[]⟩], []⟩ [[]] [[("a", .null)]] 1 .integrityError
    rfl rfl rfl

/-- With a store accepting every row, `insert_batch` always succeeds and
returns the batch length. -/
theorem insert_batch_alwaysOk (session : DBSession) (records : List TRec) :
    insert_batch alwaysOk session records =
      (.ok records.length,
       ⟨session.committed ++ (session.pending ++ records.map StreamRow.mk),
        []⟩) := by
  unfold insert_batch DBSession.bulk_save_objects DBSession.commit alwaysOk
  simp

/-- The batching loop reports the same running total (and the same
error, if any) on a dry run as on a real run in which every insert
succeeds, whatever the sessions and write logs. -/
theorem ingestLoop_dry_real (source_file : String) (batch_size : Nat)
    (records : List JVal) :
    ∀ (s1 s2 : DBSession) (batch : List TRec) (total : Nat)
      (w1 w2 : List (List TRec)),
      (ingestLoop alwaysOk source_file batch_size true records s1 batch
        total w1).1.map Prod.fst =
      (ingestLoop alwaysOk source_file batch_size false records s2 batch
        total w2).1.map Prod.fst := by
  induction records with
  | nil =>
    intro s1 s2 batch total w1 w2
    by_cases hb : batch.isEmpty
    · simp [ingestLoop, hb, Except.map]
    · simp [ingestLoop, hb, insert_batch_alwaysOk, Except.map]
  | cons r rs ih =>
    intro s1 s2 batch total w1 w2
    cases htr : transform_record r source_file with
    | error e => simp [ingestLoop, htr]
    | ok t =>
      by_cases hfull : batch_size ≤ (batch ++ [t]).length
      · simp only [ingestLoop, htr, hfull, if_true, if_pos,
          insert_batch_alwaysOk]
        exact ih ..
      · simp only [ingestLoop, htr, hfull, if_false, if_neg,
          not_false_iff]
        exact ih ..

/-- Per file, `ingest_file` reports the same record count on a dry run
as on a real run in which every insert succeeds. -/
theorem ingest_file_dry_real (filename : String)
    (content : Except PyErr JVal) (batch_size : Nat)
    (s1 s2 : DBSession) :
    (ingest_file alwaysOk filename content batch_size true s1).1.map
        Prod.fst =
      (ingest_file alwaysOk filename content batch_size false s2).1.map
        Prod.fst := by
  unfold ingest_file
  cases load_json_records content with
  | error e => rfl
  | ok records => exact ingestLoop_dry_real filename batch_size records ..

/-- With a store accepting every row, `session.commit` always
succeeds. -/
theorem commit_alwaysOk (session : DBSession) :
    session.commit alwaysOk = .ok ⟨session.committed ++ session.pending, []⟩ := by
  unfold DBSession.commit alwaysOk
  simp

/-- The per-file loop of `main` reports the same outcome on a dry run as
on a real run in which every insert succeeds, whatever the two starting
sessions. -/
theorem runFiles_dry_real (batch_size : Nat)
    (contents : String → Except PyErr JVal) (files : List String) :
    ∀ (s1 s2 : DBSession) (total : Nat),
      (runFiles alwaysOk batch_size true contents files s1 total).1 =
      (runFiles alwaysOk batch_size false contents files s2 total).1 := by
  induction files with
  | nil => intro s1 s2 total; rfl
  | cons f fs ih =>
    intro s1 s2 total
    have hf := ingest_file_dry_real f (contents f) batch_size s1 s2
    rcases hd : ingest_file alwaysOk f (contents f) batch_size true s1
      with ⟨resd, sd⟩
    rcases hr : ingest_file alwaysOk f (contents f) batch_size false s2
      with ⟨resr, sr⟩
    rw [hd, hr] at hf
    unfold runFiles
    rw [hd, hr]
    cases resd with
    | error e =>
      cases resr with
      | error e2 =>
        simp [Except.map] at hf
        simp [hf]
      | ok q => simp [Except.map] at hf
    | ok p =>
      cases resr with
      | error e2 => simp [Except.map] at hf
      | ok q =>
        obtain ⟨n, w⟩ := p
        obtain ⟨n2, w2⟩ := q
        simp [Except.map] at hf
        subst hf
        exact ih sd sr (total + n)

/-- C4: per file, `ingest_file` reports the same record count on a dry
run as on a real run in which every insert succeeds (`alwaysOk`), and a
whole `main` invocation reports the same run outcome with the dry-run
flag set as with it unset, over any directory listing, batch size, clear
flag, file contents and initial store. -/
theorem dry_run_same_counts :
    (∀ (filename : String) (content : Except PyErr JVal)
      (batch_size : Nat) (s1 s2 : DBSession),
      (ingest_file alwaysOk filename content batch_size true s1).1.map
          Prod.fst =
        (ingest_file alwaysOk filename content batch_size false s2).1.map
          Prod.fst) ∧
    (∀ (d : Option (List String)) (bs : Nat) (c : Bool)
      (contents : String → Except PyErr JVal) (db0 : List StreamRow),
      (ingestMain alwaysOk ⟨d, bs, true, c⟩ contents db0).1 =
      (ingestMain alwaysOk ⟨d, bs, false, c⟩ contents db0).1) := by
  constructor
  · exact ingest_file_dry_real
  · intro d bs c contents db0
    unfold ingestMain
    by_cases hf : (discover_json_files d).isEmpty
    · simp [hf]
    · simp only [hf, Bool.false_eq_true, if_false, Bool.not_true,
        Bool.not_false, Bool.and_false, Bool.and_true]
      have hrf := runFiles_dry_real bs contents (discover_json_files d)
        ⟨db0, []⟩ (if c = true then clear_table ⟨db0, []⟩ else ⟨db0, []⟩) 0
      rcases hd : runFiles alwaysOk bs true contents
          (discover_json_files d) ⟨db0, []⟩ 0 with ⟨resd, sd⟩
      rcases hr : runFiles alwaysOk bs false contents
          (discover_json_files d)
          (if c = true then clear_table ⟨db0, []⟩ else ⟨db0, []⟩) 0
        with ⟨resr, sr⟩
      rw [hd, hr] at hrf
      simp only at hrf
      subst hrf
      cases resd with
      | error e => rfl
      | ok total => simp [commit_alwaysOk]

/-- On a dry run the batching loop never touches the session. -/
theorem ingestLoop_dry_session (ok : StreamRow → Bool)
    (source_file : String) (batch_size : Nat) (records : List JVal) :
    ∀ (session : DBSession) (batch : List TRec) (total : Nat)
      (writes : List (List TRec)),
      (ingestLoop ok source_file batch_size true records session batch
        total writes).2 = session := by
  induction records with
  | nil =>
    intro session batch total writes
    by_cases hb : batch.isEmpty <;> simp [ingestLoop, hb]
  | cons r rs ih =>
    intro session batch total writes
    cases htr : transform_record r source_file with
    | error e => simp [ingestLoop, htr]
    | ok t =>
      by_cases hfull : batch_size ≤ batch.length + 1 <;>
        simp [ingestLoop, htr, hfull, ih]

/-- On a dry run `ingest_file` never touches the session. -/
theorem ingest_file_dry_session (ok : StreamRow → Bool)
    (filename : String) (content : Except PyErr JVal) (batch_size : Nat)
    (session : DBSession) :
    (ingest_file ok filename content batch_size true session).2 =
      session := by
  unfold ingest_file
  cases load_json_records content with
  | error e => rfl
  | ok records => exact ingestLoop_dry_session ok filename batch_size records ..

/-- On a dry run the per-file loop of `main` never touches the
session. -/
theorem runFiles_dry_session (ok : StreamRow → Bool) (batch_size : Nat)
    (contents : String → Except PyErr JVal) (files : List String) :
    ∀ (session : DBSession) (total : Nat),
      (runFiles ok batch_size true contents files session total).2 =
        session := by
  induction files with
  | nil => intro session total; rfl
  | cons f fs ih =>
    intro session total
    have hs := ingest_file_dry_session ok f (contents f) batch_size session
    unfold runFiles
    rcases hd : ingest_file ok f (contents f) batch_size true session
      with ⟨res, s1⟩
    rw [hd] at hs
    simp only at hs
    subst hs
    cases res with
    | error e => rfl
    | ok p => obtain ⟨n, w⟩ := p; exact ih ..

/-- C1: with the dry-run flag set, `main` never executes `clear_table`
(even when the clear flag is also set) and the committed rows of the
store after the run are exactly the rows it held before: no stored data
is destroyed during a simulation run. -/
theorem dry_run_never_clears (ok : StreamRow → Bool) (args : Args)
    (contents : String → Except PyErr JVal) (db0 : List StreamRow)
    (h : args.dry_run = true) :
    (ingestMain ok args contents db0).2.2 = false ∧
    (ingestMain ok args contents db0).2.1 = db0 := by
  unfold ingestMain
  rw [h]
  by_cases hf : (discover_json_files args.data_dir).isEmpty
  · simp [hf]
  · simp only [hf, Bool.false_eq_true, if_false, Bool.not_true,
      Bool.and_false]
    have hrs := runFiles_dry_session ok args.batch_size contents
      (discover_json_files args.data_dir) ⟨db0, []⟩ 0
    rcases hr : runFiles ok args.batch_size true contents
        (discover_json_files args.data_dir) ⟨db0, []⟩ 0 with ⟨res, s2⟩
    rw [hr] at hrs
    simp only at hrs
    subst hrs
    cases res with
    | error e => simp [DBSession.rollback]
    | ok total => simp [DBSession.commit]

/-- Witness for C1 at a concrete dry-run invocation over a directory
with one matching file. -/
theorem dry_run_never_clears_witness :
    (ingestMain alwaysOk
        ⟨some ["Streaming_History_Audio_2021.json"], 2, true, true⟩
        (fun _ => .ok (.arr []))
        [⟨[]⟩]).2.2 = false ∧
    (ingestMain alwaysOk
        ⟨some ["Streaming_History_Audio_2021.json"], 2, true, true⟩
        (fun _ => .ok (.arr []))
        [⟨[]⟩]).2.1 = [⟨[]⟩] :=
  dry_run_never_clears alwaysOk
    ⟨some ["Streaming_History_Audio_2021.json"], 2, true, true⟩
    (fun _ => .ok (.arr [])) [⟨[]⟩] rfl

/-- The batch pattern of zero records is empty. -/
theorem chunkLens_zero (bs : Nat) : chunkLens 0 bs = [] := by
  simp [chunkLens]

/-- The batch pattern of fewer records than one batch is a single final
partial batch. -/
theorem chunkLens_lt (k bs : Nat) (h0 : 0 < k) (h : k < bs) :
    chunkLens k bs = [k] := by
  have hk : k ≠ 0 := Nat.pos_iff_ne_zero.mp h0
  simp [chunkLens, Nat.div_eq_of_lt h, Nat.mod_eq_of_lt h, hk]

/-- One further full batch prepends the batch size to the pattern. -/
theorem chunkLens_add (m bs : Nat) (h : 0 < bs) :
    chunkLens (bs + m) bs = bs :: chunkLens m bs := by
  rw [chunkLens, chunkLens, Nat.add_comm bs m, Nat.add_div_right m h,
    Nat.add_mod_right m bs, List.replicate_succ]
  rfl

/-- One-step unfolding of the batching loop at the end of the
records. -/
theorem ingestLoop_nil (ok : StreamRow → Bool) (source_file : String)
    (batch_size : Nat) (dry_run : Bool) (session : DBSession)
    (batch : List TRec) (total : Nat) (writes : List (List TRec)) :
    ingestLoop ok source_file batch_size dry_run [] session batch total
        writes =
      if batch.isEmpty then (.ok (total, writes), session)
      else if dry_run then (.ok (total + batch.length, writes), session)
      else
        match insert_batch ok session batch with
        | (.ok n, session1) =>
          (.ok (total + n, writes ++ [batch]), session1)
        | (.error e, session1) => (.error e, session1) := by
  rfl

/-- One-step unfolding of the batching loop on a record that transforms
successfully. -/
theorem ingestLoop_cons (ok : StreamRow → Bool) (source_file : String)
    (batch_size : Nat) (dry_run : Bool) (r : JVal) (rs : List JVal)
    (session : DBSession) (batch : List TRec) (total : Nat)
    (writes : List (List TRec)) (t : TRec)
    (htr : transform_record r source_file = .ok t) :
    ingestLoop ok source_file batch_size dry_run (r :: rs) session batch
        total writes =
      if batch_size ≤ (batch ++ [t]).length then
        if dry_run then
          ingestLoop ok source_file batch_size dry_run rs session []
            (total + (batch ++ [t]).length) writes
        else
          match insert_batch ok session (batch ++ [t]) with
          | (.ok n, session1) =>
            ingestLoop ok source_file batch_size dry_run rs session1 []
              (total + n) (writes ++ [batch ++ [t]])
          | (.error e, session1) => (.error e, session1)
      else
        ingestLoop ok source_file batch_size dry_run rs session
          (batch ++ [t]) total writes := by
  conv_lhs => rw [ingestLoop]
  rw [htr]

/-- On a real run in which every insert succeeds and every record
transforms, the batching loop flushes full batches of exactly the batch
size followed by one final partial batch, counts every record, and
commits them all. -/
theorem ingestLoop_real_spec (source_file : String) (batch_size : Nat)
    (hbs : 1 ≤ batch_size) :
    ∀ (records : List JVal) (session : DBSession) (batch : List TRec)
      (total : Nat) (writes : List (List TRec)),
      (∀ r ∈ records, transformOk r source_file = true) →
      batch.length < batch_size →
      session.pending = [] →
      ∃ ws session1,
        ingestLoop alwaysOk source_file batch_size false records session
            batch total writes =
          (.ok (total + batch.length + records.length, writes ++ ws),
           session1) ∧
        ws.map List.length =
          chunkLens (batch.length + records.length) batch_size ∧
        session1.pending = [] ∧
        session1.committed.length =
          session.committed.length + batch.length + records.length := by
  intro records
  induction records with
  | nil =>
    intro session batch total writes _ hlt hp
    by_cases hb : batch.isEmpty
    · have hb0 : batch.length = 0 := by
        cases batch with
        | nil => rfl
        | cons x xs => simp [List.isEmpty] at hb
      refine ⟨[], session, ?_, ?_, hp, ?_⟩
      · rw [ingestLoop_nil, if_pos hb]
        simp [hb0]
      · simp [hb0, chunkLens_zero]
      · simp [hb0]
    · have hb0 : 0 < batch.length := by
        cases batch with
        | nil => simp [List.isEmpty] at hb
        | cons x xs => simp
      refine ⟨[batch],
        ⟨session.committed ++ (session.pending ++ batch.map StreamRow.mk),
         []⟩, ?_, ?_, rfl, ?_⟩
      · rw [ingestLoop_nil, if_neg hb, if_neg (by simp),
          insert_batch_alwaysOk]
        simp
      · simp only [List.map_cons, List.map_nil, List.length_nil,
          Nat.add_zero]
        rw [chunkLens_lt batch.length batch_size hb0 hlt]
      · rw [hp]
        simp
  | cons r rs ih =>
    intro session batch total writes hok hlt hp
    have hokr : transformOk r source_file = true := hok r (by simp)
    have hokrs : ∀ x ∈ rs, transformOk x source_file = true :=
      fun x hx => hok x (by simp [hx])
    obtain ⟨t, htr⟩ : ∃ t, transform_record r source_file = .ok t := by
      revert hokr
      unfold transformOk
      cases transform_record r source_file <;> simp
    have hlen1 : (batch ++ [t]).length = batch.length + 1 := by simp
    rw [ingestLoop_cons alwaysOk source_file batch_size false r rs
      session batch total writes t htr, hlen1]
    by_cases hfull : batch_size ≤ batch.length + 1
    · have hexact : batch.length + 1 = batch_size := by omega
      rw [if_pos hfull, insert_batch_alwaysOk]
      obtain ⟨ws, s2, heq, hlen, hp2, hc⟩ :=
        ih ⟨session.committed ++
              (session.pending ++ (batch ++ [t]).map StreamRow.mk), []⟩
          [] (total + (batch ++ [t]).length) (writes ++ [batch ++ [t]])
          hokrs (by simp only [List.length_nil]; omega) rfl
      refine ⟨(batch ++ [t]) :: ws, s2, ?_, ?_, hp2, ?_⟩
      · refine heq.trans ?_
        have hn : total + (batch ++ [t]).length +
              ([] : List TRec).length + rs.length =
            total + batch.length + (r :: rs).length := by
          simp only [List.length_append, List.length_cons,
            List.length_nil]
          omega
        have hw : (writes ++ [batch ++ [t]]) ++ ws =
            writes ++ ((batch ++ [t]) :: ws) := by simp
        rw [hn, hw]
      · simp only [List.map_cons, hlen, List.length_nil, Nat.zero_add]
        have hsum : batch.length + (r :: rs).length =
            batch_size + rs.length := by
          simp only [List.length_cons]
          omega
        rw [hsum, chunkLens_add rs.length batch_size (by omega), hlen1,
          hexact]
      · rw [hc]
        simp only [List.length_append, List.length_map, List.length_nil,
          List.length_cons]
        rw [hp]
        simp only [List.length_nil]
        omega
    · rw [if_neg hfull]
      have hlt1 : (batch ++ [t]).length < batch_size := by
        rw [hlen1]; omega
      obtain ⟨ws, s2, heq, hlen, hp2, hc⟩ :=
        ih session (batch ++ [t]) total writes hokrs hlt1 hp
      refine ⟨ws, s2, ?_, ?_, hp2, ?_⟩
      · refine heq.trans ?_
        have hn : total + (batch ++ [t]).length + rs.length =
            total + batch.length + (r :: rs).length := by
          simp only [List.length_append, List.length_cons,
            List.length_nil]
          omega
        rw [hn]
      · rw [hlen]
        congr 1
        simp only [List.length_append, List.length_cons, List.length_nil]
        omega
      · rw [hc]
        simp only [List.length_append, List.length_cons, List.length_nil]
        omega

/-- On a real run, a file whose records all transform is ingested as
full batches of the batch size plus one final partial batch, with every
record counted and committed. -/
theorem ingest_file_real_spec (filename : String) (xs : List JVal)
    (batch_size : Nat) (session : DBSession) (hbs : 1 ≤ batch_size)
    (hok : ∀ r ∈ xs, transformOk r filename = true)
    (hp : session.pending = []) :
    ∃ ws session1,
      ingest_file alwaysOk filename (.ok (.arr xs)) batch_size false
          session = (.ok (xs.length, ws), session1) ∧
      ws.map List.length = chunkLens xs.length batch_size ∧
      session1.pending = [] ∧
      session1.committed.length = session.committed.length + xs.length := by
  obtain ⟨ws, s1, heq, hlen, hp1, hc⟩ :=
    ingestLoop_real_spec filename batch_size hbs xs session [] 0 [] hok
      (by simp only [List.length_nil]; omega) hp
  simp only [List.length_nil, Nat.add_zero, Nat.zero_add,
    List.nil_append] at heq hlen hc
  exact ⟨ws, s1, heq, hlen, hp1, hc⟩

/-- On a real run over several files whose records all transform, the
per-file loop of `main` counts and commits exactly the sum of the files'
record counts. -/
theorem runFiles_real_total (batch_size : Nat) (hbs : 1 ≤ batch_size)
    (contents : String → Except PyErr JVal) :
    ∀ (files : List String) (session : DBSession) (total : Nat),
      (∀ f ∈ files, ∃ xs, contents f = .ok (.arr xs) ∧
        ∀ r ∈ xs, transformOk r f = true) →
      session.pending = [] →
      ∃ session1,
        runFiles alwaysOk batch_size false contents files session total =
          (.ok (total + (files.map (fileLen contents)).sum), session1) ∧
        session1.pending = [] ∧
        session1.committed.length =
          session.committed.length + (files.map (fileLen contents)).sum := by
  intro files
  induction files with
  | nil =>
    intro session total _ hp
    exact ⟨session, by simp [runFiles], hp, by simp⟩
  | cons f fs ih =>
    intro session total hfiles hp
    obtain ⟨xs, hcf, hxok⟩ := hfiles f (by simp)
    obtain ⟨ws, s1, heq, _, hp1, hc1⟩ :=
      ingest_file_real_spec f xs batch_size session hbs hxok hp
    have hfl : fileLen contents f = xs.length := by simp [fileLen, hcf]
    obtain ⟨s2, heq2, hp2, hc2⟩ :=
      ih s1 (total + xs.length) (fun g hg => hfiles g (by simp [hg])) hp1
    refine ⟨s2, ?_, hp2, ?_⟩
    · unfold runFiles
      rw [hcf, heq]
      refine heq2.trans ?_
      have hsum : total + xs.length + (fs.map (fileLen contents)).sum =
          total + ((f :: fs).map (fileLen contents)).sum := by
        simp [hfl]
        omega
      rw [hsum]
    · rw [hc2, hc1]
      simp [hfl]
      omega

/-- C5: `insert_batch` returns the length of the list it was given; on a
full (non-dry) run in which every insert succeeds, each file is written
as a sequence of batches of exactly the batch size followed by one final
batch of the remainder when it is non-zero, and the whole run inserts
exactly the sum of the files' record counts. -/
theorem full_run_inserts_all :
    (∀ (ok : StreamRow → Bool) (session : DBSession)
      (records : List TRec) (n : Nat) (session1 : DBSession),
      insert_batch ok session records = (.ok n, session1) →
      n = records.length) ∧
    (∀ (filename : String) (xs : List JVal) (batch_size : Nat)
      (session : DBSession), 1 ≤ batch_size →
      (∀ r ∈ xs, transformOk r filename = true) →
      session.pending = [] →
      ∃ ws session1,
        ingest_file alwaysOk filename (.ok (.arr xs)) batch_size false
            session = (.ok (xs.length, ws), session1) ∧
        ws.map List.length = chunkLens xs.length batch_size ∧
        session1.committed.length =
          session.committed.length + xs.length) ∧
    (∀ (files : List String) (contents : String → Except PyErr JVal)
      (batch_size : Nat) (db0 : List StreamRow), 1 ≤ batch_size →
      (∀ f ∈ files, ∃ xs, contents f = .ok (.arr xs) ∧
        ∀ r ∈ xs, transformOk r f = true) →
      ∃ session1,
        runFiles alwaysOk batch_size false contents files ⟨db0, []⟩ 0 =
          (.ok ((files.map (fileLen contents)).sum), session1) ∧
        session1.committed.length =
          db0.length + (files.map (fileLen contents)).sum) := by
  refine ⟨?_, ?_, ?_⟩
  · intro ok session records n session1 h
    exact (insert_batch_ok ok session records n session1 h).1
  · intro filename xs batch_size session hbs hok hp
    obtain ⟨ws, s1, heq, hlen, _, hc⟩ :=
      ingest_file_real_spec filename xs batch_size session hbs hok hp
    exact ⟨ws, s1, heq, hlen, hc⟩
  · intro files contents batch_size db0 hbs hfiles
    obtain ⟨s1, heq, _, hc⟩ :=
      runFiles_real_total batch_size hbs contents files ⟨db0, []⟩ 0
        hfiles rfl
    simp only [Nat.zero_add] at heq
    exact ⟨s1, heq, hc⟩

/-- Witness for C5: a file of three records at batch size two is written
as one batch of two and one final batch of one, and all three records
are counted and committed. -/
theorem full_run_inserts_all_witness :
    ∃ ws session1,
      ingest_file alwaysOk "Streaming_History_Audio_2021.json"
          (.ok (.arr [sampleRec, sampleRec, sampleRec])) 2 false
          ⟨[], []⟩ =
        (.ok ([sampleRec, sampleRec, sampleRec].length, ws), session1) ∧
      ws.map List.length =
        chunkLens [sampleRec, sampleRec, sampleRec].length 2 ∧
      session1.committed.length =
        (⟨[], []⟩ : DBSession).committed.length +
          [sampleRec, sampleRec, sampleRec].length :=
  full_run_inserts_all.2.1 "Streaming_History_Audio_2021.json"
    [sampleRec, sampleRec, sampleRec] 2 ⟨[], []⟩ (by decide)
    (by decide) rfl

/-- Witness for C3: a record lacking both required keys raises a
`KeyError`, and the minimal valid record raises nothing. -/
theorem transform_required_iff_witness :
    (∃ k, transform_record (.obj []) "f.json" = .error (.keyError k)) ∧
    ¬ (∃ k, transform_record (.obj [("ts", .str "t"),
        ("username", .str "u")]) "f.json" = .error (.keyError k)) := by
  constructor
  · exact (transform_required_iff [] "f.json").1.mpr (Or.inl rfl)
  · intro hcontra
    have h := (transform_required_iff [("ts", .str "t"),
      ("username", .str "u")] "f.json").1.mp hcontra
    rcases h with h | h <;> exact Option.noConfusion h

/-- Witness for C7 at a record that also carries a `source_file` key,
checking the override and the exact key set. -/
theorem transform_output_shape_witness :
    ([("ts", JVal.str "t"), ("username", .str "u"), ("platform", .null),
      ("conn_country", .null), ("ip_addr_decrypted", .null),
      ("user_agent_decrypted", .null), ("ms_played", .num 0),
      ("track_name", .null), ("artist_name", .null),
      ("album_name", .null), ("spotify_track_uri", .null),
      ("reason_start", .null), ("reason_end", .null),
      ("shuffle", .null), ("skipped", .null), ("offline", .null),
      ("offline_timestamp", .null), ("incognito_mode", .bool false),
      ("source_file", .str "f.json")].map Prod.fst = outputKeys) ∧
    outputKeys.length = 19 ∧
    "master_metadata_track_name" ∉
      ([("ts", JVal.str "t"), ("username", .str "u"), ("platform", .null),
        ("conn_country", .null), ("ip_addr_decrypted", .null),
        ("user_agent_decrypted", .null), ("ms_played", .num 0),
        ("track_name", .null), ("artist_name", .null),
        ("album_name", .null), ("spotify_track_uri", .null),
        ("reason_start", .null), ("reason_end", .null),
        ("shuffle", .null), ("skipped", .null), ("offline", .null),
        ("offline_timestamp", .null), ("incognito_mode", .bool false),
        ("source_file", .str "f.json")].map Prod.fst) ∧
    "master_metadata_album_artist_name" ∉
      ([("ts", JVal.str "t"), ("username", .str "u"), ("platform", .null),
        ("conn_country", .null), ("ip_addr_decrypted", .null),
        ("user_agent_decrypted", .null), ("ms_played", .num 0),
        ("track_name", .null), ("artist_name", .null),
        ("album_name", .null), ("spotify_track_uri", .null),
        ("reason_start", .null), ("reason_end", .null),
        ("shuffle", .null), ("skipped", .null), ("offline", .null),
        ("offline_timestamp", .null), ("incognito_mode", .bool false),
        ("source_file", .str "f.json")].map Prod.fst) ∧
    "master_metadata_album_album_name" ∉
      ([("ts", JVal.str "t"), ("username", .str "u"), ("platform", .null),
        ("conn_country", .null), ("ip_addr_decrypted", .null),
        ("user_agent_decrypted", .null), ("ms_played", .num 0),
        ("track_name", .null), ("artist_name", .null),
        ("album_name", .null), ("spotify_track_uri", .null),
        ("reason_start", .null), ("reason_end", .null),
        ("shuffle", .null), ("skipped", .null), ("offline", .null),
        ("offline_timestamp", .null), ("incognito_mode", .bool false),
        ("source_file", .str "f.json")].map Prod.fst) ∧
    ([("ts", JVal.str "t"), ("username", .str "u"), ("platform", .null),
      ("conn_country", .null), ("ip_addr_decrypted", .null),
      ("user_agent_decrypted", .null), ("ms_played", .num 0),
      ("track_name", .null), ("artist_name", .null),
      ("album_name", .null), ("spotify_track_uri", .null),
      ("reason_start", .null), ("reason_end", .null),
      ("shuffle", .null), ("skipped", .null), ("offline", .null),
      ("offline_timestamp", .null), ("incognito_mode", .bool false),
      ("source_file", .str "f.json")].lookup "source_file" =
      some (.str "f.json")) :=
  transform_output_shape
    [("ts", .str "t"), ("username", .str "u"),
     ("source_file", .str "evil.json")] "f.json" _ rfl

/-- Witness for C8 at the minimal valid record. -/
theorem transform_defaults_witness :
    transform_record
        (.obj [("ts", .str "t"), ("username", .str "u")]) "f.json" =
      .ok [("ts", .str "t"),
           ("username", .str "u"),
           ("platform", .null),
           ("conn_country", .null),
           ("ip_addr_decrypted", .null),
           ("user_agent_decrypted", .null),
           ("ms_played", .num 0),
           ("track_name", .null),
           ("artist_name", .null),
           ("album_name", .null),
           ("spotify_track_uri", .null),
           ("reason_start", .null),
           ("reason_end", .null),
           ("shuffle", .null),
           ("skipped", .null),
           ("offline", .null),
           ("offline_timestamp", .null),
           ("incognito_mode", .bool false),
           ("source_file", .str "f.json")] :=
  transform_defaults [("ts", .str "t"), ("username", .str "u")] "f.json"
    (.str "t") (.str "u") rfl rfl
    (by intro k hk; fin_cases hk <;> rfl)

/-- Witness for C10 at a record whose duration and incognito keys are
present and null. -/
theorem null_not_defaulted_witness :
    (([("ts", JVal.str "t"), ("username", .str "u"),
        ("ms_played", .null), ("incognito_mode", .null)] :
        RawRecord).lookup "ms_played" = some .null →
      ([("ts", JVal.str "t"), ("username", .str "u"), ("platform", .null),
        ("conn_country", .null), ("ip_addr_decrypted", .null),
        ("user_agent_decrypted", .null), ("ms_played", .null),
        ("track_name", .null), ("artist_name", .null),
        ("album_name", .null), ("spotify_track_uri", .null),
        ("reason_start", .null), ("reason_end", .null),
        ("shuffle", .null), ("skipped", .null), ("offline", .null),
        ("offline_timestamp", .null), ("incognito_mode", .null),
        ("source_file", .str "f.json")] : TRec).lookup "ms_played" =
        some .null) ∧
    (([("ts", JVal.str "t"), ("username", .str "u"),
        ("ms_played", .null), ("incognito_mode", .null)] :
        RawRecord).lookup "incognito_mode" = some .null →
      ([("ts", JVal.str "t"), ("username", .str "u"), ("platform", .null),
        ("conn_country", .null), ("ip_addr_decrypted", .null),
        ("user_agent_decrypted", .null), ("ms_played", .null),
        ("track_name", .null), ("artist_name", .null),
        ("album_name", .null), ("spotify_track_uri", .null),
        ("reason_start", .null), ("reason_end", .null),
        ("shuffle", .null), ("skipped", .null), ("offline", .null),
        ("offline_timestamp", .null), ("incognito_mode", .null),
        ("source_file", .str "f.json")] : TRec).lookup
        "incognito_mode" = some .null) :=
  null_not_defaulted
    [("ts", .str "t"), ("username", .str "u"), ("ms_played", .null),
     ("incognito_mode", .null)] "f.json" _ rfl
